import Mathlib

/-!
Shallow embedding of the authentication/authorization core and validation
engine of the MERN test-debug assignment server.

Sources embedded:
- `src/server/src/utils/validation.js` (validation engine, present in full)
- `src/server/src/middleware/auth.js` (auth middleware, present in full)
- `src/server/src/utils/auth.js` (token service and auth utilities; its
  full text sits after the document separator in the staged file
  `src/server/tests/integration/auth.test.js`, lines 412-535 — line
  references below use that staged file)

JavaScript conventions used by the embedding:
- a JS string argument that may be `null`/`undefined` is `Option String`;
- JS falsiness of a string is emptiness (`""` is falsy);
- strings are manipulated through their character lists (`String.data`),
  which matches JS per-character regex replacement on ASCII inputs;
- machine numbers that the code only ever uses as integers are `Int`/`Nat`.
-/

/-- Result record returned by every aggregate validator:
`{ isValid: bool, errors: string[] }`. -/
structure ValidationResult where
  isValid : Bool
  errors : List String
deriving Repr, DecidableEq

/-- `validatePassword` from `src/server/src/utils/validation.js:20-52`.
An absent (`null`/`undefined`) or empty password short-circuits to the
single "required" violation; otherwise every rule is checked and each
failure is pushed onto `errors` in source order.  The JS regex classes
`[a-z]`, `[A-Z]`, `\d`, `[!@#$%^&*]` are embedded as character predicates
over the string's characters. -/
def validatePassword (password : Option String) : ValidationResult :=
  match password with
  | none => { isValid := false, errors := ["Password is required"] }
  | some s =>
    if s.isEmpty then
      { isValid := false, errors := ["Password is required"] }
    else
      let errs : List String :=
        (if s.length < 6 then ["Password must be at least 6 characters long"] else []) ++
        (if ¬ s.data.any (fun c => c.isLower) then
          ["Password must contain at least one lowercase letter"] else []) ++
        (if ¬ s.data.any (fun c => c.isUpper) then
          ["Password must contain at least one uppercase letter"] else []) ++
        (if ¬ s.data.any (fun c => c.isDigit) then
          ["Password must contain at least one number"] else []) ++
        (if ¬ s.data.any (fun c => c ∈ ['!', '@', '#', '$', '%', '^', '&', '*']) then
          ["Password must contain at least one special character (!@#$%^&*)"] else [])
      { isValid := errs.isEmpty, errors := errs }

/-- `validateUsername` from `src/server/src/utils/validation.js:59-83`.
Required short-circuit, then length bounds and the character-class rule
`/^[a-zA-Z0-9_]+$/` checked unconditionally. -/
def validateUsername (username : Option String) : ValidationResult :=
  match username with
  | none => { isValid := false, errors := ["Username is required"] }
  | some s =>
    if s.isEmpty then
      { isValid := false, errors := ["Username is required"] }
    else
      let errs : List String :=
        (if s.length < 3 then ["Username must be at least 3 characters long"] else []) ++
        (if s.length > 30 then ["Username must be no more than 30 characters long"] else []) ++
        (if ¬ s.data.all (fun c => c.isAlphanum ∨ c = '_') then
          ["Username can only contain letters, numbers, and underscores"] else [])
      { isValid := errs.isEmpty, errors := errs }

/-- A JavaScript value as it reaches `sanitizeString`: a string, `null`,
`undefined`, or a number (`typeof input !== 'string'` covers the last
three). -/
inductive JsInput where
  | vstr (s : String)
  | vnull
  | vundef
  | vnum (n : Int)
deriving Repr, DecidableEq

/-- `.trim()` on the character list: drop Unicode whitespace from both
ends (the embedding uses Lean's `Char.isWhitespace`, which covers the
ASCII whitespace the tests exercise). -/
def trimChars (cs : List Char) : List Char :=
  ((cs.dropWhile Char.isWhitespace).reverse.dropWhile Char.isWhitespace).reverse

/-- `.replace(/[<>]/g, '')`: delete every angle bracket. -/
def stripAngles (cs : List Char) : List Char :=
  cs.filter (fun c => ¬ (c = '<' ∨ c = '>'))

/-- `.replace(/&/g, '&amp;')`: per-character expansion. -/
def replaceAmp (cs : List Char) : List Char :=
  cs.flatMap (fun c => if c = '&' then ['&', 'a', 'm', 'p', ';'] else [c])

/-- `.replace(/"/g, '&quot;')`. -/
def replaceQuot (cs : List Char) : List Char :=
  cs.flatMap (fun c => if c = '"' then ['&', 'q', 'u', 'o', 't', ';'] else [c])

/-- `.replace(/'/g, '&#x27;')`. -/
def replaceApos (cs : List Char) : List Char :=
  cs.flatMap (fun c => if c = '\'' then ['&', '#', 'x', '2', '7', ';'] else [c])

/-- `.replace(/\//g, '&#x2F;')`. -/
def replaceSlash (cs : List Char) : List Char :=
  cs.flatMap (fun c => if c = '/' then ['&', '#', 'x', '2', 'F', ';'] else [c])

/-- `sanitizeString` from `src/server/src/utils/validation.js:100-110`.
Non-string input returns `""`; a string is trimmed, stripped of angle
brackets, then has `&`, `"`, `'`, `/` escaped, in that source order. -/
def sanitizeString (input : JsInput) : String :=
  match input with
  | .vstr s =>
    ⟨replaceSlash (replaceApos (replaceQuot (replaceAmp (stripAngles (trimChars s.data)))))⟩
  | _ => ""

/-- A JavaScript value as it reaches `validatePagination` inside the
`params` object: absent (`undefined`), a string, or a number. -/
inductive JsVal where
  | undef
  | str (s : String)
  | num (n : Int)
deriving Repr, DecidableEq

/-- Fold a digit list into a number in the given radix. -/
def digitsToNat (radix : Nat) (ds : List Nat) : Nat :=
  ds.foldl (fun a d => a * radix + d) 0

/-- Hexadecimal digit value of a character, if any. -/
def hexDigitVal (c : Char) : Option Nat :=
  if c.isDigit then some (c.toNat - '0'.toNat)
  else if 'a' ≤ c ∧ c ≤ 'f' then some (c.toNat - 'a'.toNat + 10)
  else if 'A' ≤ c ∧ c ≤ 'F' then some (c.toNat - 'A'.toNat + 10)
  else none

/-- JavaScript `parseInt` with no radix argument: skip leading
whitespace, read an optional sign, then either a `0x`/`0X` hexadecimal
literal or a maximal run of decimal digits; `none` models `NaN` (no
digits at all). -/
def parseIntJs (s : String) : Option Int :=
  let cs := s.data.dropWhile Char.isWhitespace
  let (sign, cs) : Int × List Char :=
    match cs with
    | '-' :: rest => (-1, rest)
    | '+' :: rest => (1, rest)
    | _ => (1, cs)
  match cs with
  | '0' :: x :: rest =>
    if x = 'x' ∨ x = 'X' then
      let hs := (rest.takeWhile (fun c => (hexDigitVal c).isSome)).filterMap hexDigitVal
      if hs.isEmpty then none else some (sign * digitsToNat 16 hs)
    else
      let ds := (('0' :: x :: rest).takeWhile Char.isDigit).map (fun c => c.toNat - '0'.toNat)
      some (sign * digitsToNat 10 ds)
  | _ =>
    let ds := (cs.takeWhile Char.isDigit).map (fun c => c.toNat - '0'.toNat)
    if ds.isEmpty then none else some (sign * digitsToNat 10 ds)

/-- `parseInt(v) || default` applied to a pagination parameter after the
destructuring defaults `page = 1` / `limit = 10`: an absent value takes
the default, and a parse result of `NaN` or `0` (both falsy) also falls
back to the default. -/
def coercePaginationVal (v : JsVal) (dflt : Int) : Int :=
  match v with
  | .undef => dflt
  | .num n => if n = 0 then dflt else n
  | .str s =>
    match parseIntJs s with
    | none => dflt
    | some n => if n = 0 then dflt else n

/-- The `params` object destructured by `validatePagination`. -/
structure PaginationParams where
  page : JsVal := .undef
  limit : JsVal := .undef
deriving Repr, DecidableEq

/-- The object `validatePagination` returns. -/
structure PaginationOut where
  page : Int
  limit : Int
  skip : Int
deriving Repr, DecidableEq

/-- `validatePagination` from `src/server/src/utils/validation.js:117-128`:
`page = max(1, parseInt(page) || 1)`, `limit = min(100, max(1, parseInt(limit) || 10))`,
`skip = (page - 1) * limit`. -/
def validatePagination (params : PaginationParams) : PaginationOut :=
  let validatedPage := max 1 (coercePaginationVal params.page 1)
  let validatedLimit := min 100 (max 1 (coercePaginationVal params.limit 10))
  { page := validatedPage
    limit := validatedLimit
    skip := (validatedPage - 1) * validatedLimit }

/-- Whether `y` is a Gregorian leap year. -/
def isLeapYear (y : Nat) : Bool :=
  (y % 4 = 0 ∧ y % 100 ≠ 0) ∨ y % 400 = 0

/-- Number of days in month `m` of year `y`. -/
def daysInMonth (y m : Nat) : Nat :=
  if m = 2 then (if isLeapYear y then 29 else 28)
  else if m = 4 ∨ m = 6 ∨ m = 9 ∨ m = 11 then 30
  else 31

/-- `new Date(string)` restricted to the calendar-date form `YYYY-MM-DD`
of the ECMAScript date-time string format (the only form the code and its
tests exercise); the result is an order-preserving numeric key
`y * 10000 + m * 100 + d`, and `none` models an Invalid Date (`NaN`
timestamp).  Any string not of that shape, out-of-range month, or
out-of-range day is invalid. -/
def parseDate (s : String) : Option Nat :=
  match s.data with
  | [y1, y2, y3, y4, '-', m1, m2, '-', d1, d2] =>
    if y1.isDigit ∧ y2.isDigit ∧ y3.isDigit ∧ y4.isDigit ∧
       m1.isDigit ∧ m2.isDigit ∧ d1.isDigit ∧ d2.isDigit then
      let y := digitsToNat 10 ([y1, y2, y3, y4].map (fun c => c.toNat - '0'.toNat))
      let m := digitsToNat 10 ([m1, m2].map (fun c => c.toNat - '0'.toNat))
      let d := digitsToNat 10 ([d1, d2].map (fun c => c.toNat - '0'.toNat))
      if 1 ≤ m ∧ m ≤ 12 ∧ 1 ≤ d ∧ d ≤ daysInMonth y m then
        some (y * 10000 + m * 100 + d)
      else none
    else none
  | _ => none

/-- `validateDateRange` from `src/server/src/utils/validation.js:147-171`.
All checks sit inside `if (startDate && endDate)`, so they run only when
BOTH strings are truthy (non-empty); the three violations are pushed in
source order.  The `start > end` comparison is `false` whenever either
side is an Invalid Date (`NaN` compares false), which the `match` on the
two parses mirrors. -/
def validateDateRange (startDate endDate : String) : ValidationResult :=
  let errs : List String :=
    if ¬ startDate.isEmpty ∧ ¬ endDate.isEmpty then
      (if (parseDate startDate).isNone then ["Invalid start date format"] else []) ++
      (if (parseDate endDate).isNone then ["Invalid end date format"] else []) ++
      (match parseDate startDate, parseDate endDate with
       | some a, some b => if a > b then ["Start date must be before end date"] else []
       | _, _ => [])
    else []
  { isValid := errs.isEmpty, errors := errs }

/-- The `file` object consumed by `validateFileUpload`. -/
structure FileObj where
  size : Nat
  mimetype : String
deriving Repr, DecidableEq

/-- The `options` object of `validateFileUpload`, with its source
defaults. -/
structure UploadOptions where
  maxSize : Nat := 5 * 1024 * 1024
  allowedTypes : List String := ["image/jpeg", "image/png", "image/gif"]
  maxFiles : Nat := 1
deriving Repr, DecidableEq

/-- `validateFileUpload` from `src/server/src/utils/validation.js:179-205`.
A missing file short-circuits to the single "required" violation; the
size bound and mime-type whitelist are then checked unconditionally.
The size message interpolates `maxSize / (1024*1024)`; the embedding uses
natural division, which agrees with the JS float division on the
megabyte-multiple sizes the code and tests use. -/
def validateFileUpload (file : Option FileObj) (options : UploadOptions) : ValidationResult :=
  match file with
  | none => { isValid := false, errors := ["File is required"] }
  | some f =>
    let errs : List String :=
      (if f.size > options.maxSize then
        ["File size must be less than " ++ toString (options.maxSize / (1024 * 1024)) ++ "MB"]
       else []) ++
      (if ¬ options.allowedTypes.contains f.mimetype then
        ["File type must be one of: " ++ String.intercalate ", " options.allowedTypes]
       else [])
    { isValid := errs.isEmpty, errors := errs }

/-- An id value as it flows through the auth code: either a plain string
or a boxed store id (Mongo `ObjectId` wrapping its hex text).  Both sides
of every ownership comparison are put through `.toString()`. -/
inductive IdVal where
  | str (s : String)
  | oid (s : String)
deriving Repr, DecidableEq

/-- `.toString()`: the canonical string form of an id. -/
def IdVal.canon : IdVal → String
  | .str s => s
  | .oid s => s

/-- JS truthiness of an id value: the empty string is falsy, a boxed id
is always truthy. -/
def IdVal.falsy : IdVal → Bool
  | .str s => s.isEmpty
  | .oid _ => false

/-- An identity record as stored by the identity store (the Mongoose
`User` document the middleware consumes). -/
structure User where
  _id : IdVal
  email : String
  username : String
  role : String
  isActive : Bool
deriving Repr, DecidableEq

/-- The claim set embedded in a token:
`{ id, email, username, role, iat, exp }` (timestamps in seconds). -/
structure Claims where
  id : String
  email : String
  username : String
  role : String
  iat : Nat
  exp : Nat
deriving Repr, DecidableEq

/-- Keyed signature over a claim set: a deterministic digest of the
payload fields and the secret.  Verification only ever compares a token's
signature against the recomputed digest, so any computable keyed function
embeds the "symmetric, keyed, tamper-evident" scheme. -/
def signature (c : Claims) (secret : String) : Nat :=
  (String.intercalate "|" [c.id, c.email, c.username, c.role, toString c.iat, toString c.exp, secret]).data.foldl
    (fun a ch => a * 257 + ch.toNat) 7

/-- A structurally decoded token: payload plus attached signature. -/
structure SignedToken where
  payload : Claims
  sig : Nat
deriving Repr, DecidableEq

/-- A token wire string: either garbage that cannot be structurally
decoded, or a decodable payload-signature pair. -/
inductive RawToken where
  | garbage (s : String)
  | signed (t : SignedToken)
deriving Repr, DecidableEq

/-- The failure kinds of the underlying `jsonwebtoken` verification:
`JsonWebTokenError` for an undecodable token (`malformed`) or a signature
mismatch (`invalidSignature`), `TokenExpiredError` for a past expiry. -/
inductive JwtError where
  | malformed
  | expired
  | invalidSignature
deriving Repr, DecidableEq

/-- `jwt.verify(token, secret)` at clock time `now` (seconds): reject an
undecodable string as malformed, then check the signature, then the
expiry (`exp ≤ now` is expired), and otherwise return the payload. -/
def jwtVerify (raw : RawToken) (secret : String) (now : Nat) : Except JwtError Claims :=
  match raw with
  | .garbage _ => .error .malformed
  | .signed t =>
    if t.sig ≠ signature t.payload secret then .error .invalidSignature
    else if t.payload.exp ≤ now then .error .expired
    else .ok t.payload

/-- The duck-typed user object `generateToken` receives: unlike a store
record its `_id` may be null/undefined (the unit test
`src/server/tests/unit/auth.test.js:56-59` passes `_id: null`). -/
structure SignInput where
  _id : Option IdVal
  email : String
  username : String
  role : String
deriving Repr, DecidableEq

/-- A store record viewed as the object handed to `generateToken`. -/
def User.asSignInput (u : User) : SignInput :=
  { _id := some u._id, email := u.email, username := u.username, role := u.role }

/-- `generateToken` from `src/server/src/utils/auth.js` (text at
`src/server/tests/integration/auth.test.js:424-443`).  Builds the payload
`{ id, email, username, role }`, signs it with the process secret and the
configured lifetime (`jwt.sign` adds `iat` = now and `exp` = now +
lifetime), and wraps any signing failure into the thrown
`'Failed to generate token'` error.  The external `jwt.sign` is modelled
as failing exactly on a payload whose id is absent, the one failing input
the repository's unit test pins (`auth.test.js:56-59`). -/
def generateToken (user : SignInput) (secret : String) (lifetime : Nat) (now : Nat) :
    Except String RawToken :=
  match user._id with
  | none => .error "Failed to generate token"
  | some i =>
    let payload : Claims :=
      { id := i.canon
        email := user.email
        username := user.username
        role := user.role
        iat := now
        exp := now + lifetime }
    .ok (.signed { payload := payload, sig := signature payload secret })

/-- `verifyToken` from `src/server/src/utils/auth.js` (text at
`src/server/tests/integration/auth.test.js:450-459`): it calls
`jwt.verify` inside `try`/`catch` and rethrows EVERY failure — malformed,
bad signature and expired alike — as the one generic
`throw new Error('Invalid token')`, returning the decoded payload
otherwise. -/
def verifyToken (raw : RawToken) (secret : String) (now : Nat) : Except String Claims :=
  match jwtVerify raw secret now with
  | .ok c => .ok c
  | .error _ => .error "Invalid token"

/-- `extractTokenFromHeader` from `src/server/src/utils/auth.js` (text at
`src/server/tests/integration/auth.test.js:466-471`): null for an absent
header or one not starting with `'Bearer '`, and otherwise
`authHeader.substring(7)` — with NO emptiness check, so `"Bearer "`
yields the empty string `""`, not null (callers rely on `''` being
falsy). -/
def extractTokenFromHeader (header : Option String) : Option String :=
  match header with
  | none => none
  | some h =>
    match h.data with
    | 'B' :: 'e' :: 'a' :: 'r' :: 'e' :: 'r' :: ' ' :: rest => some ⟨rest⟩
    | _ => none

/-- `getCurrentUser` from `src/server/src/utils/auth.js` (text at
`src/server/tests/integration/auth.test.js:478-492`): verifies the token
(`verifyToken` throwing lands in the `catch`, giving null), looks the
embedded id up via `User.findById(decoded.id).select('-password')` — the
store argument abstracts that call, returning credential-free records or
throwing — and returns null when the lookup throws, finds no record
(`!user`), or finds a record whose `isActive` flag is false
(`!user.isActive`). -/
def getCurrentUser (raw : RawToken) (secret : String) (now : Nat)
    (store : String → Except String (Option User)) : Option User :=
  match verifyToken raw secret now with
  | .error _ => none
  | .ok c =>
    match store c.id with
    | .error _ => none
    | .ok none => none
    | .ok (some u) => if u.isActive then some u else none

/-- What an Express middleware does with a request: call `next()` with
the request's (possibly absent) resolved user, or respond immediately
with a status and error message. -/
inductive MwResult where
  | next (user : Option User)
  | respond (status : Nat) (msg : String)
deriving Repr, DecidableEq

/-- `optionalAuth` from `src/server/src/middleware/auth.js:35-54`.  The
resolver argument stands for `getCurrentUser` with any behaviour the
lookup may exhibit, a thrown error (`Except.error`) included.  The guard
`if (token)` is JS truthiness, so both a null extraction and the empty
string extracted from `"Bearer "` skip the lookup.  If a truthy token
resolves to a user, the request carries that user into `next()`; in
every other case — no token, no user, or a thrown error caught by the
surrounding `try`/`catch` — `next()` is still called with the request
left anonymous. -/
def optionalAuth (authHeader : Option String)
    (resolve : String → Except String (Option User)) : MwResult :=
  match extractTokenFromHeader authHeader with
  | none => .next none
  | some tok =>
    if tok.isEmpty then .next none
    else
      match resolve tok with
      | .ok u => .next u
      | .error _ => .next none

/-- `isOwner` from `src/server/src/utils/auth.js` (text at
`src/server/tests/integration/auth.test.js:522-525`):
`if (!user || !resourceUserId) return false` — false for an absent user,
an absent owner id, or a falsy owner id such as `''` — and otherwise
`user._id.toString() === resourceUserId.toString()`, the comparison of
canonical string forms. -/
def isOwner (user : Option User) (resourceUserId : Option IdVal) : Bool :=
  match user, resourceUserId with
  | some u, some rid => if rid.falsy then false else u._id.canon == rid.canon
  | _, _ => false

/-- `requireOwner` from `src/server/src/middleware/auth.js:86-105` with
the resource owner id already extracted from the request: 401 without a
resolved user, 400 for an absent/falsy resource id, 403 when
`req.user._id.toString() !== resourceUserId.toString()` AND the role is
not `'admin'`, and `next()` otherwise. -/
def requireOwner (user : Option User) (resourceUserId : Option IdVal) : MwResult :=
  match user with
  | none => .respond 401 "Authentication required"
  | some u =>
    match resourceUserId with
    | none => .respond 400 "Resource not found"
    | some rid =>
      if rid.falsy then .respond 400 "Resource not found"
      else if u._id.canon ≠ rid.canon ∧ u.role ≠ "admin" then
        .respond 403 "Access denied"
      else .next (some u)

/-- The claim set the payload of `generateToken` amounts to for a store
record `u` issued at `now` with the configured `lifetime`:
`{ id, email, username, role }` plus the `iat`/`exp` timestamps
`jwt.sign` attaches. -/
def issueClaims (u : User) (lifetime now : Nat) : Claims :=
  { id := u._id.canon
    email := u.email
    username := u.username
    role := u.role
    iat := now
    exp := now + lifetime }

/-- The fixture identity of `src/server/tests/unit/auth.test.js:23-28`
(an active account; the tests' store mocks return it). -/
def mockUser : User :=
  { _id := .str "507f1f77bcf86cd799439011"
    email := "test@example.com"
    username := "testuser"
    role := "user"
    isActive := true }

/-- The claim set `generateToken` embeds for `mockUser` at issuance time
100 with a one-hour lifetime. -/
def mockClaims : Claims :=
  { id := "507f1f77bcf86cd799439011"
    email := "test@example.com"
    username := "testuser"
    role := "user"
    iat := 100
    exp := 3700 }

/-- A validator result of the aggregated shape `{ errs.isEmpty, errs }`
satisfies the `isValid ↔ no errors` invariant. -/
theorem isEmpty_mk (l : List String) :
    (ValidationResult.mk l.isEmpty l).isValid = true ↔
      (ValidationResult.mk l.isEmpty l).errors = [] := by
  cases l <;> simp

/-- Membership transfer through a per-character replacement
`a ↦ if a = x then exp else [a]`: a character that does not occur in the
expansion and occurs in the replaced list already occurred in the
original list. -/
theorem mem_flatMap_if {c x : Char} {exp : List Char} {l : List Char}
    (hc : c ∉ exp) (h : c ∈ l.flatMap (fun a => if a = x then exp else [a])) : c ∈ l := by
  rcases List.mem_flatMap.mp h with ⟨a, ha, hmem⟩
  by_cases hax : a = x
  · simp [hax] at hmem
    exact absurd hmem hc
  · simp [hax] at hmem
    rwa [hmem]

/-- C3: `validatePassword` aggregates all violated rules in one call:
`"weak"` yields exactly the four violations too-short, missing-uppercase,
missing-digit, missing-special (and not missing-lowercase), while an
empty or absent password short-circuits to the single "required"
violation. -/
theorem validatePassword_aggregates :
    validatePassword (some "weak") =
      { isValid := false
        errors := ["Password must be at least 6 characters long",
                   "Password must contain at least one uppercase letter",
                   "Password must contain at least one number",
                   "Password must contain at least one special character (!@#$%^&*)"] }
    ∧ validatePassword (some "") = { isValid := false, errors := ["Password is required"] }
    ∧ validatePassword none = { isValid := false, errors := ["Password is required"] } := by
  decide

/-- C4: every validator (password, username, date-range, file-upload)
returns a result with `isValid = true` exactly when its `errors` list is
empty, for every input. -/
theorem validationResult_consistency :
    ∀ (password username : Option String) (startDate endDate : String)
      (file : Option FileObj) (options : UploadOptions),
      ((validatePassword password).isValid = true ↔ (validatePassword password).errors = [])
      ∧ ((validateUsername username).isValid = true ↔ (validateUsername username).errors = [])
      ∧ ((validateDateRange startDate endDate).isValid = true ↔
          (validateDateRange startDate endDate).errors = [])
      ∧ ((validateFileUpload file options).isValid = true ↔
          (validateFileUpload file options).errors = []) := by
  intro password username startDate endDate file options
  refine ⟨?_, ?_, ?_, ?_⟩
  · cases password with
    | none => simp [validatePassword]
    | some s =>
      simp only [validatePassword]
      split
      · simp
      · exact isEmpty_mk _
  · cases username with
    | none => simp [validateUsername]
    | some s =>
      simp only [validateUsername]
      split
      · simp
      · exact isEmpty_mk _
  · exact isEmpty_mk _
  · cases file with
    | none => simp [validateFileUpload]
    | some f => exact isEmpty_mk _

/-- C5: for every params object `validatePagination` returns a page
floored at 1, a limit clamped to `[1, 100]`, and
`skip = (page - 1) * limit`; in particular `{page: "0", limit: "1000"}`
yields `{page: 1, limit: 100, skip: 0}`. -/
theorem validatePagination_normalizes :
    (∀ params : PaginationParams,
      1 ≤ (validatePagination params).page
      ∧ 1 ≤ (validatePagination params).limit
      ∧ (validatePagination params).limit ≤ 100
      ∧ (validatePagination params).skip =
          ((validatePagination params).page - 1) * (validatePagination params).limit)
    ∧ validatePagination { page := .str "0", limit := .str "1000" } =
        { page := 1, limit := 100, skip := 0 } := by
  constructor
  · intro params
    refine ⟨le_max_left 1 _, le_min (by norm_num) (le_max_left 1 _), min_le_left 100 _, rfl⟩
  · decide

/-- C6 counterexample: the claim "each end that is present must
individually parse as a valid date" fails — `"invalid-date"` is present
(non-empty) and does not parse, yet because the other end is absent the
validator runs no checks and reports success. -/
theorem validateDateRange_ignores_lone_end :
    validateDateRange "invalid-date" "" = { isValid := true, errors := [] }
    ∧ parseDate "invalid-date" = none
    ∧ ("invalid-date" : String).isEmpty = false := by
  decide

/-- C6 amended: the parse and ordering checks run only when BOTH ends are
present (either end empty makes the result trivially valid); when both
are present, validity holds exactly when both parse and start ≤ end.  The
two cited instances hold as stated. -/
theorem validateDateRange_amended :
    validateDateRange "2023-12-31" "2023-01-01" =
      { isValid := false, errors := ["Start date must be before end date"] }
    ∧ validateDateRange "" "" = { isValid := true, errors := [] }
    ∧ (∀ s e : String, ¬ s.isEmpty → ¬ e.isEmpty →
        ((validateDateRange s e).isValid = true ↔
          ∃ a b, parseDate s = some a ∧ parseDate e = some b ∧ a ≤ b)) := by
  refine ⟨by decide, by decide, ?_⟩
  intro s e hs he
  simp only [validateDateRange]
  rw [if_pos ⟨hs, he⟩]
  rcases hps : parseDate s with _ | a <;> rcases hpe : parseDate e with _ | b <;>
    simp [hps, hpe]

/-- C6 amended, witnessed at a concrete in-order range with both ends
present. -/
theorem validateDateRange_amended_witness :
    (validateDateRange "2023-01-01" "2023-12-31").isValid = true ↔
      ∃ a b, parseDate "2023-01-01" = some a ∧ parseDate "2023-12-31" = some b ∧ a ≤ b :=
  validateDateRange_amended.2.2 "2023-01-01" "2023-12-31" (by decide) (by decide)

/-- C10 counterexample: the "no surrounding whitespace" part of the claim
fails — the code trims BEFORE stripping angle brackets, so removing a
leading `<` can expose interior whitespace at the start of the output:
`sanitizeString("< a")` is `" a"`, which begins with a whitespace
character. -/
theorem sanitizeString_exposes_whitespace :
    sanitizeString (.vstr "< a") = " a"
    ∧ (sanitizeString (.vstr "< a")).data.head? = some ' '
    ∧ (' ').isWhitespace = true := by
  decide

/-- C10 amended: `sanitizeString` is total — every non-string input
(null, undefined, number) returns the empty string, and for every string
input the output contains no `<` or `>` characters; the input's own
surrounding whitespace is trimmed, but the trim happens before
angle-bracket stripping, so stripping may leave interior whitespace at
the ends of the output. -/
theorem sanitizeString_amended :
    sanitizeString .vnull = ""
    ∧ sanitizeString .vundef = ""
    ∧ (∀ n : Int, sanitizeString (.vnum n) = "")
    ∧ (∀ s : String, ((sanitizeString (.vstr s)).data.contains '<') = false
        ∧ ((sanitizeString (.vstr s)).data.contains '>') = false) := by
  refine ⟨rfl, rfl, fun n => rfl, fun s => ⟨?_, ?_⟩⟩
  · have hmem : '<' ∉ (sanitizeString (.vstr s)).data := by
      intro h
      simp only [sanitizeString, replaceSlash, replaceApos, replaceQuot, replaceAmp] at h
      have h1 := mem_flatMap_if (by decide) h
      have h2 := mem_flatMap_if (by decide) h1
      have h3 := mem_flatMap_if (by decide) h2
      have h4 := mem_flatMap_if (by decide) h3
      have h5 := List.mem_filter.mp h4
      simp at h5
    simpa using hmem
  · have hmem : '>' ∉ (sanitizeString (.vstr s)).data := by
      intro h
      simp only [sanitizeString, replaceSlash, replaceApos, replaceQuot, replaceAmp] at h
      have h1 := mem_flatMap_if (by decide) h
      have h2 := mem_flatMap_if (by decide) h1
      have h3 := mem_flatMap_if (by decide) h2
      have h4 := mem_flatMap_if (by decide) h3
      have h5 := List.mem_filter.mp h4
      simp at h5
    simpa using hmem

/-- C1: for every identity (a store record, whose id is present),
issuing succeeds with the claim set built from the identity, and
verifying that token — under the same secret, before the expiry —
succeeds and yields claims whose id, email, username and role equal that
identity's fields. -/
theorem token_round_trip (u : User) (secret : String) (lifetime now now2 : Nat)
    (hexp : now2 < now + lifetime) :
    generateToken u.asSignInput secret lifetime now =
      .ok (.signed { payload := issueClaims u lifetime now,
                     sig := signature (issueClaims u lifetime now) secret })
    ∧ verifyToken
        (.signed { payload := issueClaims u lifetime now,
                   sig := signature (issueClaims u lifetime now) secret }) secret now2 =
        .ok (issueClaims u lifetime now)
    ∧ (issueClaims u lifetime now).id = u._id.canon
    ∧ (issueClaims u lifetime now).email = u.email
    ∧ (issueClaims u lifetime now).username = u.username
    ∧ (issueClaims u lifetime now).role = u.role := by
  refine ⟨rfl, ?_, rfl, rfl, rfl, rfl⟩
  simp only [verifyToken, jwtVerify]
  rw [if_neg (by simp)]
  rw [if_neg (by simp only [issueClaims]; omega)]

/-- C1 witnessed on the test fixture identity: issue at time 1000 with a
one-hour lifetime, verify at time 2000. -/
theorem token_round_trip_witness :
    verifyToken
      (.signed { payload := issueClaims mockUser 3600 1000,
                 sig := signature (issueClaims mockUser 3600 1000) "test-secret-key" })
      "test-secret-key" 2000 = .ok (issueClaims mockUser 3600 1000) :=
  (token_round_trip mockUser "test-secret-key" 3600 1000 2000 (by decide)).2.1

/-- C2 counterexample: the failure kinds are NOT distinguishable by the
caller — a token issued with lifetime 0 (expired) and a structurally
undecodable string (malformed) make `verifyToken` fail with the very same
generic error value, even though the underlying jwt layer saw an expired
token in one case and a malformed one in the other. -/
theorem verifyToken_kinds_indistinguishable :
    generateToken mockUser.asSignInput "test-secret-key" 0 100 =
      .ok (.signed { payload := issueClaims mockUser 0 100,
                     sig := signature (issueClaims mockUser 0 100) "test-secret-key" })
    ∧ verifyToken
        (.signed { payload := issueClaims mockUser 0 100,
                   sig := signature (issueClaims mockUser 0 100) "test-secret-key" })
        "test-secret-key" 100 =
        verifyToken (.garbage "invalid-token") "test-secret-key" 100
    ∧ verifyToken
        (.signed { payload := issueClaims mockUser 0 100,
                   sig := signature (issueClaims mockUser 0 100) "test-secret-key" })
        "test-secret-key" 100 = .error "Invalid token"
    ∧ jwtVerify
        (.signed { payload := issueClaims mockUser 0 100,
                   sig := signature (issueClaims mockUser 0 100) "test-secret-key" })
        "test-secret-key" 100 = .error .expired
    ∧ jwtVerify (.garbage "invalid-token") "test-secret-key" 100 = .error .malformed := by
  refine ⟨rfl, ?_, ?_, ?_, rfl⟩ <;>
  · simp only [verifyToken, jwtVerify]
    rw [if_neg (by simp)]
    rw [if_pos (by decide)]

/-- C2 amended: `verify` fails on a structurally undecodable string, a
wrong signature, and a past expiry — a token issued with lifetime 0
immediately falls in the expired case — and otherwise returns the
embedded claims unchanged; the jwt layer distinguishes the three failure
kinds (malformed, invalid signature, expired), but `verifyToken`
collapses every failure into the single generic `'Invalid token'` error,
so the kinds are not distinguishable by its caller. -/
theorem verifyToken_collapsed_kinds (secret : String) (now : Nat) (s : String)
    (t : SignedToken) (u : User) :
    (verifyToken (.garbage s) secret now = .error "Invalid token"
      ∧ jwtVerify (.garbage s) secret now = .error .malformed)
    ∧ (t.sig ≠ signature t.payload secret →
        jwtVerify (.signed t) secret now = .error .invalidSignature
        ∧ verifyToken (.signed t) secret now = .error "Invalid token")
    ∧ (t.sig = signature t.payload secret → t.payload.exp ≤ now →
        jwtVerify (.signed t) secret now = .error .expired
        ∧ verifyToken (.signed t) secret now = .error "Invalid token")
    ∧ (t.sig = signature t.payload secret → now < t.payload.exp →
        verifyToken (.signed t) secret now = .ok t.payload)
    ∧ (∀ tok, generateToken u.asSignInput secret 0 now = .ok tok →
        jwtVerify tok secret now = .error .expired
        ∧ verifyToken tok secret now = .error "Invalid token") := by
  refine ⟨⟨rfl, rfl⟩, ?_, ?_, ?_, ?_⟩
  · intro hs
    simp only [verifyToken, jwtVerify]
    rw [if_pos hs]
    exact ⟨rfl, rfl⟩
  · intro hs hexp
    simp only [verifyToken, jwtVerify]
    rw [if_neg (by simp [hs]), if_pos hexp]
    exact ⟨rfl, rfl⟩
  · intro hs hexp
    simp only [verifyToken, jwtVerify]
    rw [if_neg (by simp [hs]), if_neg (by omega)]
  · intro tok hgen
    have h := Except.ok.inj hgen
    subst h
    constructor <;>
    · simp only [verifyToken, jwtVerify]
      rw [if_neg (by simp)]
      rw [if_pos (by omega)]

set_option maxRecDepth 4000 in
/-- C2 amended, witnessed: a concrete tampered signature is rejected as
`invalidSignature` underneath and surfaces as the generic error, and a
correctly signed unexpired concrete token verifies to its payload. -/
theorem verifyToken_collapsed_kinds_witness :
    (jwtVerify (.signed ⟨mockClaims, signature mockClaims "test-secret-key" + 1⟩)
        "test-secret-key" 100 = .error .invalidSignature
      ∧ verifyToken (.signed ⟨mockClaims, signature mockClaims "test-secret-key" + 1⟩)
          "test-secret-key" 100 = .error "Invalid token")
    ∧ verifyToken (.signed ⟨mockClaims, signature mockClaims "test-secret-key"⟩)
        "test-secret-key" 100 = .ok mockClaims
    ∧ (jwtVerify
        (.signed ⟨issueClaims mockUser 0 100, signature (issueClaims mockUser 0 100) "test-secret-key"⟩)
        "test-secret-key" 100 = .error .expired
      ∧ verifyToken
          (.signed ⟨issueClaims mockUser 0 100, signature (issueClaims mockUser 0 100) "test-secret-key"⟩)
          "test-secret-key" 100 = .error "Invalid token") :=
  ⟨(verifyToken_collapsed_kinds "test-secret-key" 100 "x"
      ⟨mockClaims, signature mockClaims "test-secret-key" + 1⟩ mockUser).2.1
      (by simp),
   (verifyToken_collapsed_kinds "test-secret-key" 100 "x"
      ⟨mockClaims, signature mockClaims "test-secret-key"⟩ mockUser).2.2.2.1
      rfl (by decide),
   (verifyToken_collapsed_kinds "test-secret-key" 100 "x"
      ⟨mockClaims, signature mockClaims "test-secret-key"⟩ mockUser).2.2.2.2
      (.signed ⟨issueClaims mockUser 0 100, signature (issueClaims mockUser 0 100) "test-secret-key"⟩)
      rfl⟩

/-- C7: with a resolved identity and a present (truthy) resource owner
id, `requireOwner` lets the request through exactly when the identity
owns the resource (canonical string forms of the ids are equal) or the
identity's role is the elevated role `'admin'`; and the ownership
decision does not depend on whether the owner id arrives as a plain
string or as a boxed store id with the same text. -/
theorem requireOwner_owner_or_admin (u : User) (rid : IdVal) (s : String)
    (hrid : rid.falsy = false) (hs : s.isEmpty = false) :
    (requireOwner (some u) (some rid) = .next (some u) ↔
      (isOwner (some u) (some rid) = true ∨ u.role = "admin"))
    ∧ requireOwner (some u) (some (.str s)) = requireOwner (some u) (some (.oid s)) := by
  constructor
  · by_cases h1 : u._id.canon = rid.canon <;> by_cases h2 : u.role = "admin" <;>
      simp [requireOwner, isOwner, hrid, h1, h2]
  · have hs' : (IdVal.str s).falsy = false := hs
    by_cases h1 : u._id.canon = s <;> by_cases h2 : u.role = "admin" <;>
      simp [requireOwner, IdVal.falsy, IdVal.canon, hs, h1, h2]

/-- C7 witnessed: the fixture user owns the resource whose owner id is
its own id as a plain string, and the same id boxed decides identically. -/
theorem requireOwner_owner_or_admin_witness :
    (requireOwner (some mockUser) (some (.str "507f1f77bcf86cd799439011")) =
        .next (some mockUser) ↔
      (isOwner (some mockUser) (some (.str "507f1f77bcf86cd799439011")) = true ∨
        mockUser.role = "admin"))
    ∧ requireOwner (some mockUser) (some (.str "507f1f77bcf86cd799439011")) =
        requireOwner (some mockUser) (some (.oid "507f1f77bcf86cd799439011")) :=
  requireOwner_owner_or_admin mockUser (.str "507f1f77bcf86cd799439011")
    "507f1f77bcf86cd799439011" (by decide) (by decide)

/-- C8: `getCurrentUser` treats a dead account as unauthenticated — when
the token verifies but the embedded id has no record in the store, or the
record's active flag is false, the resolved identity is `none`. -/
theorem getCurrentUser_dead_account (raw : RawToken) (secret : String) (now : Nat)
    (store : String → Except String (Option User)) (c : Claims)
    (hv : verifyToken raw secret now = .ok c) :
    (store c.id = .ok none → getCurrentUser raw secret now store = none)
    ∧ (∀ u, store c.id = .ok (some u) → u.isActive = false →
        getCurrentUser raw secret now store = none) := by
  constructor
  · intro hstore
    simp [getCurrentUser, hv, hstore]
  · intro u hstore hact
    simp [getCurrentUser, hv, hstore, hact]

set_option maxRecDepth 4000 in
/-- C8 witnessed: a token for the fixture identity against a store with
no record, and against a store holding the same record deactivated. -/
theorem getCurrentUser_dead_account_witness :
    (getCurrentUser
        (.signed { payload := issueClaims mockUser 3600 0,
                   sig := signature (issueClaims mockUser 3600 0) "test-secret-key" })
        "test-secret-key" 0 (fun _ => .ok none) = none)
    ∧ (getCurrentUser
        (.signed { payload := issueClaims mockUser 3600 0,
                   sig := signature (issueClaims mockUser 3600 0) "test-secret-key" })
        "test-secret-key" 0
        (fun _ => .ok (some { mockUser with isActive := false })) = none) :=
  ⟨(getCurrentUser_dead_account
      (.signed { payload := issueClaims mockUser 3600 0,
                 sig := signature (issueClaims mockUser 3600 0) "test-secret-key" })
      "test-secret-key" 0 (fun _ => .ok none) (issueClaims mockUser 3600 0) rfl).1 rfl,
   (getCurrentUser_dead_account
      (.signed { payload := issueClaims mockUser 3600 0,
                 sig := signature (issueClaims mockUser 3600 0) "test-secret-key" })
      "test-secret-key" 0 (fun _ => .ok (some { mockUser with isActive := false }))
      (issueClaims mockUser 3600 0) rfl).2
      { mockUser with isActive := false } rfl rfl⟩

/-- C9: the optional-auth path always continues the pipeline — for every
request header and every behaviour of the identity lookup it calls
`next()` (never responds with an error) — and when the lookup throws, the
error is caught internally and the request is left anonymous. -/
theorem optionalAuth_resilient (authHeader : Option String)
    (resolve : String → Except String (Option User)) :
    (∃ u, optionalAuth authHeader resolve = .next u)
    ∧ (∀ tok e, extractTokenFromHeader authHeader = some tok → tok.isEmpty = false →
        resolve tok = .error e → optionalAuth authHeader resolve = .next none) := by
  constructor
  · rcases h : extractTokenFromHeader authHeader with _ | tok
    · exact ⟨none, by simp [optionalAuth, h]⟩
    · by_cases he : tok.isEmpty
      · exact ⟨none, by simp [optionalAuth, h, he]⟩
      · rcases hr : resolve tok with e | u
        · exact ⟨none, by simp [optionalAuth, h, he, hr]⟩
        · exact ⟨u, by simp [optionalAuth, h, he, hr]⟩
  · intro tok e h1 h2 h3
    simp [optionalAuth, h1, h2, h3]

/-- C9 witnessed: a well-formed bearer header whose lookup throws a
database error still reaches `next()` anonymously. -/
theorem optionalAuth_resilient_witness :
    optionalAuth (some "Bearer abc")
      (fun _ => (.error "Database error" : Except String (Option User))) = .next none :=
  (optionalAuth_resilient (some "Bearer abc")
    (fun _ => (.error "Database error" : Except String (Option User)))).2
    "abc" "Database error" rfl rfl rfl
